import Mathlib

/-!
Verification development for the flight-route resolution engine of the
black-lattice repository (src/flight_tracker.py).

The Python code is shallowly embedded: dictionaries become association
lists (first match wins, so prepending models overwriting assignment),
`time.time()` becomes a natural-number timestamp `now` supplied per call,
and each HTTP request is mediated by an oracle that returns the outcome
the adapter would extract from the response (the spec itself fixes this
boundary: the chain relies only on the outcome enum plus a parsed record).
Printing is ignored except where it toggles state flags.
-/

set_option autoImplicit false

/-- Embedding of the six-field route dictionaries built in
`lookup_flight_route` (origin/destination airport codes, cities,
ISO country codes). -/
structure RouteRecord where
  origin : String
  destination : String
  origin_city : String
  destination_city : String
  origin_country : String
  destination_country : String
  deriving DecidableEq, Repr

/-- The `("", "", "", "", "", "")` tuple returned on every failure path. -/
def emptyRecord : RouteRecord :=
  ⟨"", "", "", "", "", ""⟩

/-- Python `d[k]` / `d.get(k)` on a dict embedded as an association list:
the first binding for the key wins. -/
def dictGet? {β : Type} : List (String × β) → String → Option β
  | [], _ => none
  | (k, v) :: rest, key => if k = key then some v else dictGet? rest key

/-- Python `k in d`. -/
def dictContains {β : Type} (d : List (String × β)) (k : String) : Bool :=
  (dictGet? d k).isSome

/-- Python `d[k] = v`: prepending overwrites for `dictGet?`. -/
def dictSet {β : Type} (d : List (String × β)) (k : String) (v : β) :
    List (String × β) :=
  (k, v) :: d

/-- The guarded insert pattern used at the three database write sites
(`if key not in self.route_database: self.route_database[key] = rec`). -/
def recordDiscovered (db : List (String × RouteRecord)) (k : String)
    (rec : RouteRecord) : List (String × RouteRecord) :=
  if dictContains db k then db else dictSet db k rec

/-- ASCII whitespace stripped by Python `str.strip()`. -/
def isPySpace (c : Char) : Bool :=
  c = ' ' ∨ c = '\t' ∨ c = '\n' ∨ c = '\r' ∨ c = '\x0b' ∨ c = '\x0c'

/-- Embedding of Python `s.strip()` (ASCII inputs). -/
def pyStrip (s : String) : String :=
  (((s.toList.dropWhile isPySpace).reverse.dropWhile isPySpace).reverse).asString

/-- Embedding of `flight_number.strip().upper()` (ASCII inputs). -/
def pyStripUpper (raw : String) : String :=
  ((pyStrip raw).toList.map Char.toUpper).asString

def isUpperLetter (c : Char) : Bool :=
  'A' ≤ c ∧ c ≤ 'Z'

def isDigitChar (c : Char) : Bool :=
  '0' ≤ c ∧ c ≤ '9'

/-- Embedding of `re.match(r'^([A-Z]\x7b2,3\x7d)(\d+[A-Z]?)$', s)`: the match
succeeds iff the maximal leading run of uppercase letters has length 2 or 3,
is followed by at least one digit, and the remainder is empty or one
uppercase letter.  (With a longer letter run the regex backtracks to a
2-letter group and then still requires a digit, so it fails; hence taking
the maximal run is equivalent.)  Returns `(group 1, group 2)`. -/
def matchFlightPattern (s : String) : Option (String × String) :=
  let cs := s.toList
  let letters := cs.takeWhile isUpperLetter
  let rest := cs.dropWhile isUpperLetter
  let digits := rest.takeWhile isDigitChar
  let tail := rest.dropWhile isDigitChar
  let tailOk : Bool :=
    match tail with
    | [] => true
    | [c] => isUpperLetter c
    | _ => false
  if (letters.length = 2 ∨ letters.length = 3) ∧ digits ≠ [] ∧ tailOk then
    some (letters.asString, (digits ++ tail).asString)
  else
    none

/-- The static `ICAO_TO_IATA` airline-code table (class attribute of
`FlightTracker`), transcribed entry for entry. -/
def ICAO_TO_IATA : List (String × String) :=
  [("FDB", "FZ"), ("UAE", "EK"), ("ETD", "EY"), ("QTR", "QR"),
   ("GFA", "GF"), ("SVA", "SV"), ("KAC", "KU"), ("OMA", "WY"),
   ("RJA", "RJ"), ("MEA", "ME"), ("IAW", "IA"),
   ("AIC", "AI"), ("IGO", "6E"), ("SEJ", "SG"), ("CPA", "CX"),
   ("SIA", "SQ"), ("THA", "TG"), ("MAS", "MH"), ("GIA", "GA"),
   ("PAL", "PR"), ("CES", "MU"), ("CSN", "CZ"), ("CCA", "CA"),
   ("ANA", "NH"), ("JAL", "JL"), ("KAL", "KE"), ("AAR", "OZ"),
   ("BAW", "BA"), ("DLH", "LH"), ("AFR", "AF"), ("KLM", "KL"),
   ("SWR", "LX"), ("AUA", "OS"), ("BEL", "SN"), ("TAP", "TP"),
   ("IBE", "IB"), ("AZA", "AZ"), ("SAS", "SK"), ("FIN", "AY"),
   ("EIN", "EI"), ("VIR", "VS"), ("EZY", "U2"), ("RYR", "FR"),
   ("WZZ", "W6"), ("VLG", "VY"),
   ("AAL", "AA"), ("DAL", "DL"), ("UAL", "UA"), ("SWA", "WN"),
   ("JBU", "B6"), ("NKS", "NK"), ("FFT", "F9"), ("ACA", "AC"),
   ("AMX", "AM"), ("AVA", "AV"), ("LAN", "LA"), ("GLO", "G3"),
   ("AZU", "AD"), ("CMP", "CM"),
   ("ETH", "ET"), ("SAA", "SA"), ("MSR", "MS"), ("RAM", "AT"),
   ("KQA", "KQ"),
   ("QFA", "QF"), ("VOZ", "VA"), ("ANZ", "NZ"),
   ("FDX", "FX"), ("UPS", "5X"), ("GTI", "GT")]

/-- Variant expansion in `lookup_flight_route` (lines 502-515): the cleaned
identifier first; if it matches the pattern with a 3-letter airline code
present in `ICAO_TO_IATA`, the IATA-prefixed variant is appended. -/
def flight_numbers_to_try (flight_number : String) : List String :=
  match matchFlightPattern flight_number with
  | some (airline_code, flight_num) =>
      if airline_code.length = 3 then
        match dictGet? ICAO_TO_IATA airline_code with
        | some iata_code => [flight_number, iata_code ++ flight_num]
        | none => [flight_number]
      else [flight_number]
  | none => [flight_number]

/-- `self.route_cache_ttl = 3600`. -/
def route_cache_ttl : Nat := 3600

example : pyStripUpper " uae215 " = "UAE215" := by decide
example : matchFlightPattern "UAE215" = some ("UAE", "215") := by decide
example : matchFlightPattern "EK215" = some ("EK", "215") := by decide
example : matchFlightPattern "UAE8LT" = none := by decide
example : matchFlightPattern "AB12C" = some ("AB", "12C") := by decide
example : flight_numbers_to_try "UAE215" = ["UAE215", "EK215"] := by decide
example : flight_numbers_to_try "EK215" = ["EK215"] := by decide
example : flight_numbers_to_try "XYZ9" = ["XYZ9"] := by decide

/-- The mutable `FlightTracker` fields touched by route resolution. -/
structure TrackerState where
  route_cache : List (String × RouteRecord)
  route_cache_time : List (String × Nat)
  route_database : List (String × RouteRecord)
  quota_exceeded : Bool
  quota_exceeded_until : Nat
  quota_error_logged : Bool
  airport_cache : List (String × (String × String))
  deriving DecidableEq, Repr

/-- A state with every map empty and the quota circuit closed, as after
`__init__` with no persisted database. -/
def initialState : TrackerState :=
  ⟨[], [], [], false, 0, false, []⟩

/-- The configuration fields of `FlightTracker.__init__` that route
resolution reads; empty string models a missing key (Python falsiness). -/
structure Config where
  route_api_provider : String
  aviation_edge_key : String
  rapidapi_key : String
  deriving DecidableEq, Repr

/-- Outcome of one Aviation Edge `airportDatabase` request, as consumed by
`_get_airport_details`: a 200 response with a non-empty list yields the
`nameAirport` and `codeIso2Country` fields of its first element; every
other response shape, status, or exception is a failure. -/
inductive AirportResp where
  | ok (nameAirport : String) (codeIso2Country : String)
  | failure
  deriving DecidableEq, Repr

/-- Embedding of `_get_airport_details` (lines 844-896).  `clean`
abstracts the regex-based city extraction of lines 877-880 applied to the
stripped airport name.  Returns the `(city, country)` pair, the updated
`_airport_cache`, and whether an HTTP request was issued. -/
def getAirportDetails (clean : String → String) (aviation_edge_key : String)
    (cache : List (String × (String × String))) (airport_code : String)
    (resp : AirportResp) :
    (String × String) × List (String × (String × String)) × Bool :=
  if airport_code = "" ∨ aviation_edge_key = "" then (("", ""), cache, false)
  else
    match dictGet? cache airport_code with
    | some v => (v, cache, false)
    | none =>
        match resp with
        | .ok nameAirport codeIso2Country =>
            let airport_name := pyStrip nameAirport
            let city0 := clean airport_name
            let city := if city0 = "" ∨ city0.length < 2 then airport_name else city0
            let country := pyStrip codeIso2Country
            ((city, country), dictSet cache airport_code (city, country), true)
        | .failure =>
            (("", ""), dictSet cache airport_code ("", ""), true)

/-- Outcome of one Aviation Edge `flights` request for a variant, as
consumed by `_lookup_route_aviation_edge`: a 200 response with a
non-empty list yields the `departure.iataCode` and `arrival.iataCode`
fields of its first element; any other status, shape, or exception is a
failure (the loop just continues). -/
inductive AEFlightResp where
  | ok (depIata : String) (arrIata : String)
  | failure
  deriving DecidableEq, Repr

/-- The two Aviation Edge oracles: per-variant flight responses and
per-airport-code details responses. -/
structure AEOracle where
  flightResp : String → AEFlightResp
  airportResp : String → AirportResp

/-- Embedding of `_lookup_route_aviation_edge` (lines 800-842): try each
variant; on a 200 response whose stripped departure and arrival codes are
both non-empty, look up both airports and return the record; otherwise
continue.  Returns the optional record, the updated airport cache, and
the number of HTTP requests made. -/
def aviationEdgeLookup (ae : AEOracle) (clean : String → String)
    (aviation_edge_key : String) :
    List String → List (String × (String × String)) → Nat →
    Option RouteRecord × List (String × (String × String)) × Nat
  | [], acache, calls => (none, acache, calls)
  | flight_number :: rest, acache, calls =>
      match ae.flightResp flight_number with
      | .ok depIata arrIata =>
          let origin := pyStrip depIata
          let destination := pyStrip arrIata
          if origin ≠ "" ∧ destination ≠ "" then
            let r1 := getAirportDetails clean aviation_edge_key acache origin
              (ae.airportResp origin)
            let r2 := getAirportDetails clean aviation_edge_key r1.2.1 destination
              (ae.airportResp destination)
            (some ⟨origin, destination, r1.1.1, r2.1.1, r1.1.2, r2.1.2⟩,
             r2.2.1,
             calls + 1 + (cond r1.2.2 1 0) + (cond r2.2.2 1 0))
          else
            aviationEdgeLookup ae clean aviation_edge_key rest acache (calls + 1)
      | .failure =>
          aviationEdgeLookup ae clean aviation_edge_key rest acache (calls + 1)

/-- Outcome of one Aerodatabox request for a (variant, endpoint) pair, as
consumed by the loop at lines 610-793: `noContent` is HTTP 204, `quota`
is HTTP 429, `badStatus` is any other non-200 status, `exn` is a raised
exception, and `ok rec` is a 200 response whose body parses (lines
650-754) to the six stripped fields of `rec` (a 200 body from which
neither airport can be extracted is `ok` with both codes empty). -/
inductive AdbResp where
  | noContent
  | quota
  | badStatus
  | exn
  | ok (rec : RouteRecord)
  deriving DecidableEq, Repr

/-- Result of the Aerodatabox variant/endpoint loops: `found` carries the
serving variant (the loop variable `fn_to_try`, observable in the debug
output and in the database writes), the returned record, the state, and
the request count; `quotaStop` is the immediate return on HTTP 429;
`exhausted` means every pair was tried without success. -/
inductive AdbLoop where
  | found (fn_to_try : String) (rec : RouteRecord) (st : TrackerState) (calls : Nat)
  | quotaStop (st : TrackerState) (calls : Nat)
  | exhausted (st : TrackerState) (calls : Nat)
  deriving DecidableEq, Repr

/-- The endpoint list built at lines 595-605, indexed 0..2; the guard
reads `quota_exceeded`, which is always false by then. -/
def endpointsToTry (quota_exceeded : Bool) : List Nat :=
  if quota_exceeded then [0] else [0, 1, 2]

/-- The write-through block at lines 767-780, executed on a 200 response
with `origin or destination` non-empty: cache the record under the cleaned
identifier `flight_number`, persist it under `flight_number` if absent,
and, when `fn_to_try` differs, also persist it under `fn_to_try` if
absent. -/
def adbWriteThrough (flight_number fn_to_try : String) (now : Nat)
    (rec : RouteRecord) (st : TrackerState) : TrackerState :=
  let st1 :=
    { st with route_cache := dictSet st.route_cache flight_number rec,
              route_cache_time := dictSet st.route_cache_time flight_number now }
  let st2 :=
    { st1 with route_database := recordDiscovered st1.route_database flight_number rec }
  if fn_to_try ≠ flight_number then
    { st2 with route_database := recordDiscovered st2.route_database fn_to_try rec }
  else st2

/-- Inner Aerodatabox loop (`for endpoint_template, date_str in
endpoints_to_try`) for one variant `fn_to_try`.  On 429 it sets the quota
flags (`quota_exceeded_until = now + 24*3600`) and aborts; on a 200
response with `origin or destination` non-empty it writes through to the
cache under the cleaned identifier `flight_number`, persists under
`flight_number` and, when different, under `fn_to_try` (both guarded,
lines 756-787) and returns the record; every other outcome continues. -/
def adbTryEndpoints (oracle : String → Nat → AdbResp) (flight_number : String)
    (now : Nat) (fn_to_try : String) :
    List Nat → TrackerState → Nat → AdbLoop
  | [], st, calls => .exhausted st calls
  | ep :: rest, st, calls =>
      match oracle fn_to_try ep with
      | .noContent => adbTryEndpoints oracle flight_number now fn_to_try rest st (calls + 1)
      | .badStatus => adbTryEndpoints oracle flight_number now fn_to_try rest st (calls + 1)
      | .exn => adbTryEndpoints oracle flight_number now fn_to_try rest st (calls + 1)
      | .quota =>
          .quotaStop
            { st with quota_exceeded := true,
                      quota_exceeded_until := now + 24 * 3600,
                      quota_error_logged := true }
            (calls + 1)
      | .ok rec =>
          if rec.origin ≠ "" ∨ rec.destination ≠ "" then
            .found fn_to_try rec (adbWriteThrough flight_number fn_to_try now rec st)
              (calls + 1)
          else
            adbTryEndpoints oracle flight_number now fn_to_try rest st (calls + 1)

/-- Outer Aerodatabox loop (`for fn_to_try in flight_numbers_to_try`). -/
def adbTryAll (oracle : String → Nat → AdbResp) (flight_number : String)
    (now : Nat) (eps : List Nat) :
    List String → TrackerState → Nat → AdbLoop
  | [], st, calls => .exhausted st calls
  | fn :: rest, st, calls =>
      match adbTryEndpoints oracle flight_number now fn eps st calls with
      | .found f r st' c => .found f r st' c
      | .quotaStop st' c => .quotaStop st' c
      | .exhausted st' c => adbTryAll oracle flight_number now eps rest st' c

/-- STEP 1 of `lookup_flight_route` (lines 517-529): first variant present
in `route_database` wins; the hit also refreshes the cache under that
variant. -/
def step1Database (now : Nat) :
    List String → TrackerState → Option (RouteRecord × TrackerState)
  | [], _ => none
  | fn :: rest, st =>
      match dictGet? st.route_database fn with
      | some route_data =>
          some (route_data,
            { st with route_cache := dictSet st.route_cache fn route_data,
                      route_cache_time := dictSet st.route_cache_time fn now })
      | none => step1Database now rest st

/-- STEP 2 of `lookup_flight_route` (lines 531-542): first variant with an
unexpired cache entry wins; an expired entry just lets the loop continue
(`time.time() - cache_time < self.route_cache_ttl`, truncated subtraction
on naturals agrees with the float comparison since the TTL is positive). -/
def step2Cache (now : Nat) :
    List String → TrackerState → Option RouteRecord
  | [], _ => none
  | fn :: rest, st =>
      match dictGet? st.route_cache fn with
      | some cached =>
          if now - ((dictGet? st.route_cache_time fn).getD 0) < route_cache_ttl
          then some cached
          else step2Cache now rest st
      | none => step2Cache now rest st

/-- The cooldown-expiry reset at lines 577-580: when the quota flag is set
(and the cooldown is over), clear it and the logged flag; otherwise leave
the state untouched. -/
def quotaReset (st : TrackerState) : TrackerState :=
  if st.quota_exceeded then
    { st with quota_exceeded := false, quota_error_logged := false }
  else st

/-- Full result of one `lookup_flight_route` call: the returned tuple, the
final tracker state, and how many HTTP requests went to each provider. -/
structure ResolveOut where
  result : RouteRecord
  state : TrackerState
  aeCalls : Nat
  adbCalls : Nat
  deriving DecidableEq, Repr

/-- Embedding of `lookup_flight_route` (lines 483-798): clean the
identifier, expand variants, STEP 1 database, STEP 2 cache, then the
Aviation Edge branch (primary, never falls through to Aerodatabox) or the
Aerodatabox branch guarded by the 24-hour quota circuit breaker. -/
def lookup_flight_route (cfg : Config) (ae : AEOracle)
    (adb : String → Nat → AdbResp) (clean : String → String)
    (st : TrackerState) (now : Nat) (raw : String) : ResolveOut :=
  let flight_number := pyStripUpper raw
  let variants := flight_numbers_to_try flight_number
  match step1Database now variants st with
  | some (rec, st') => ⟨rec, st', 0, 0⟩
  | none =>
  match step2Cache now variants st with
  | some rec => ⟨rec, st, 0, 0⟩
  | none =>
  if cfg.route_api_provider = "aviation_edge" ∧ cfg.aviation_edge_key ≠ "" then
    match aviationEdgeLookup ae clean cfg.aviation_edge_key variants
        st.airport_cache 0 with
    | (some rec, acache', calls) =>
        let st1 := { st with airport_cache := acache' }
        let st2 :=
          { st1 with route_database := recordDiscovered st1.route_database flight_number rec }
        ⟨rec, st2, calls, 0⟩
    | (none, acache', calls) =>
        ⟨emptyRecord, { st with airport_cache := acache' }, calls, 0⟩
  else
  if cfg.rapidapi_key = "" then ⟨emptyRecord, st, 0, 0⟩
  else
  if st.quota_exceeded ∧ now < st.quota_exceeded_until then
    ⟨emptyRecord, st, 0, 0⟩
  else
    let st0 := quotaReset st
    let eps := endpointsToTry st0.quota_exceeded
    match adbTryAll adb flight_number now eps variants st0 0 with
    | .found _ rec st' c => ⟨rec, st', 0, c⟩
    | .quotaStop st' c => ⟨emptyRecord, st', 0, c⟩
    | .exhausted st' c => ⟨emptyRecord, st', 0, c⟩

/-- The final tracker state carried by any of the three loop outcomes. -/
def AdbLoop.state : AdbLoop → TrackerState
  | .found _ _ st _ => st
  | .quotaStop st _ => st
  | .exhausted st _ => st

/-- The request count carried by any of the three loop outcomes. -/
def AdbLoop.calls : AdbLoop → Nat
  | .found _ _ _ c => c
  | .quotaStop _ c => c
  | .exhausted _ c => c

/-- What `_load_route_database` (lines 170-185) can find at
`data/flight_routes.json`. -/
inductive RouteFileState where
  | missing
  | corrupt
  | valid (db : List (String × RouteRecord))
  deriving Repr

/-- Embedding of `_load_route_database`: a missing file yields the empty
store; a file whose JSON fails to parse is caught by the bare `except`,
a warning is printed, and the store is likewise reset to empty; a valid
file is loaded as is. -/
def loadRouteDatabase : RouteFileState → List (String × RouteRecord)
  | .missing => []
  | .corrupt => []
  | .valid db => db

/-- Modelled from the spec: the `Load` contract of RouteStore, which is
supposed to fail with a `StorageError` on malformed persisted data
(corrupt JSON) while a missing file is not an error and yields an empty
map.  Kept separate for comparison with `loadRouteDatabase`, the
embedding of what the code actually does. -/
def loadRouteStoreSpec : RouteFileState → Except Unit (List (String × RouteRecord))
  | .missing => .ok []
  | .corrupt => .error ()
  | .valid db => .ok db

theorem dictGet?_dictSet_self {β : Type} (d : List (String × β)) (k : String)
    (v : β) : dictGet? (dictSet d k v) k = some v := by
  simp [dictGet?, dictSet]

theorem dictGet?_dictSet_ne {β : Type} (d : List (String × β)) (k key : String)
    (v : β) (h : k ≠ key) : dictGet? (dictSet d k v) key = dictGet? d key := by
  simp [dictGet?, dictSet, h]

theorem dictGet?_dictSet_cases {β : Type} (d : List (String × β))
    (k key : String) (v w : β) (h : dictGet? (dictSet d k v) key = some w) :
    dictGet? d key = some w ∨ w = v := by
  by_cases hk : k = key
  · subst hk
    rw [dictGet?_dictSet_self] at h
    exact Or.inr (Option.some.inj h).symm
  · rw [dictGet?_dictSet_ne _ _ _ _ hk] at h
    exact Or.inl h

theorem recordDiscovered_preserves (db : List (String × RouteRecord))
    (k' : String) (r' : RouteRecord) (k : String) (r : RouteRecord)
    (h : dictGet? db k = some r) :
    dictGet? (recordDiscovered db k' r') k = some r := by
  unfold recordDiscovered
  by_cases hc : dictContains db k'
  · simp [hc, h]
  · simp only [hc, if_false, Bool.false_eq_true]
    by_cases hk : k' = k
    · subst hk
      simp [dictContains, h] at hc
    · rw [dictGet?_dictSet_ne _ _ _ _ hk]
      exact h

theorem recordDiscovered_new (db : List (String × RouteRecord)) (k : String)
    (r : RouteRecord) (h : dictGet? db k = none) :
    dictGet? (recordDiscovered db k r) k = some r := by
  unfold recordDiscovered
  simp [dictContains, h, dictGet?_dictSet_self]

theorem recordDiscovered_get_ne (db : List (String × RouteRecord))
    (k' : String) (r' : RouteRecord) (k : String) (h : k' ≠ k) :
    dictGet? (recordDiscovered db k' r') k = dictGet? db k := by
  unfold recordDiscovered
  by_cases hc : dictContains db k'
  · simp [hc]
  · simp only [hc, if_false, Bool.false_eq_true]
    exact dictGet?_dictSet_ne _ _ _ _ h

theorem recordDiscovered_cases (db : List (String × RouteRecord))
    (k' : String) (r' : RouteRecord) (k : String) (w : RouteRecord)
    (h : dictGet? (recordDiscovered db k' r') k = some w) :
    dictGet? db k = some w ∨ w = r' := by
  unfold recordDiscovered at h
  by_cases hc : dictContains db k'
  · simp [hc] at h
    exact Or.inl h
  · simp only [hc, if_false, Bool.false_eq_true] at h
    exact dictGet?_dictSet_cases _ _ _ _ _ h

theorem step1Database_none (now : Nat) :
    ∀ (l : List String) (st : TrackerState),
    step1Database now l st = none →
    ∀ fn ∈ l, dictGet? st.route_database fn = none := by
  intro l
  induction l with
  | nil => intro st _ fn hfn; cases hfn
  | cons a t ih =>
      intro st h fn hfn
      unfold step1Database at h
      cases ha : dictGet? st.route_database a with
      | some v => rw [ha] at h; cases h
      | none =>
          rw [ha] at h
          rcases List.mem_cons.mp hfn with rfl | hm
          · exact ha
          · exact ih st h fn hm

theorem step1Database_first_hit (now : Nat) (st : TrackerState)
    (fn : String) (rec : RouteRecord) :
    ∀ (l1 l2 : List String),
    (∀ g ∈ l1, dictGet? st.route_database g = none) →
    dictGet? st.route_database fn = some rec →
    step1Database now (l1 ++ fn :: l2) st =
      some (rec,
        { st with route_cache := dictSet st.route_cache fn rec,
                  route_cache_time := dictSet st.route_cache_time fn now }) := by
  intro l1
  induction l1 with
  | nil =>
      intro l2 _ hfn
      unfold step1Database
      rw [List.nil_append]
      simp [hfn]
  | cons a t ih =>
      intro l2 hnone hfn
      have ha : dictGet? st.route_database a = none :=
        hnone a (List.mem_cons_self a t)
      rw [List.cons_append]
      unfold step1Database
      rw [ha]
      exact ih l2 (fun g hg => hnone g (List.mem_cons_of_mem a hg)) hfn

theorem step1Database_some (now : Nat) :
    ∀ (l : List String) (st : TrackerState) (rec : RouteRecord)
      (st' : TrackerState),
    step1Database now l st = some (rec, st') →
    (∃ fn ∈ l, dictGet? st.route_database fn = some rec ∧
       st' = { st with route_cache := dictSet st.route_cache fn rec,
                       route_cache_time := dictSet st.route_cache_time fn now }) := by
  intro l
  induction l with
  | nil => intro st rec st' h; cases h
  | cons a t ih =>
      intro st rec st' h
      unfold step1Database at h
      cases ha : dictGet? st.route_database a with
      | some v =>
          rw [ha] at h
          refine ⟨a, List.mem_cons_self a t, ?_, ?_⟩
          · rw [ha]; cases h; rfl
          · cases h; rfl
      | none =>
          rw [ha] at h
          obtain ⟨fn, hm, hget, hst⟩ := ih st rec st' h
          exact ⟨fn, List.mem_cons_of_mem a hm, hget, hst⟩

theorem step2Cache_some (now : Nat) :
    ∀ (l : List String) (st : TrackerState) (rec : RouteRecord),
    step2Cache now l st = some rec →
    ∃ fn ∈ l, dictGet? st.route_cache fn = some rec ∧
      now - ((dictGet? st.route_cache_time fn).getD 0) < route_cache_ttl ∧
      now < ((dictGet? st.route_cache_time fn).getD 0) + route_cache_ttl := by
  intro l
  induction l with
  | nil => intro st rec h; cases h
  | cons a t ih =>
      intro st rec h
      unfold step2Cache at h
      split at h
      · rename_i v ha
        by_cases htime :
            now - ((dictGet? st.route_cache_time a).getD 0) < route_cache_ttl
        · rw [if_pos htime] at h
          refine ⟨a, List.mem_cons_self a t, ?_, htime, ?_⟩
          · rw [ha]; exact congrArg some (Option.some.inj h)
          · omega
        · rw [if_neg htime] at h
          obtain ⟨fn, hm, h1, h2, h3⟩ := ih st rec h
          exact ⟨fn, List.mem_cons_of_mem a hm, h1, h2, h3⟩
      · obtain ⟨fn, hm, h1, h2, h3⟩ := ih st rec h
        exact ⟨fn, List.mem_cons_of_mem a hm, h1, h2, h3⟩

theorem step2Cache_none_of_expired (now : Nat) :
    ∀ (l : List String) (st : TrackerState),
    (∀ fn ∈ l, ((dictGet? st.route_cache_time fn).getD 0) + route_cache_ttl ≤ now) →
    step2Cache now l st = none := by
  intro l
  induction l with
  | nil => intro st _; rfl
  | cons a t ih =>
      intro st h
      unfold step2Cache
      split
      · rename_i v ha
        have hexp := h a (List.mem_cons_self a t)
        have hlt : ¬ (now - ((dictGet? st.route_cache_time a).getD 0) < route_cache_ttl) := by
          omega
        rw [if_neg hlt]
        exact ih st (fun fn hfn => h fn (List.mem_cons_of_mem a hfn))
      · exact ih st (fun fn hfn => h fn (List.mem_cons_of_mem a hfn))

theorem flight_numbers_to_try_head (s : String) :
    ∃ t, flight_numbers_to_try s = s :: t := by
  unfold flight_numbers_to_try
  cases matchFlightPattern s with
  | none => exact ⟨[], rfl⟩
  | some p =>
      cases p with
      | mk code num =>
          by_cases h3 : code.length = 3
          · simp only [h3, if_true]
            cases dictGet? ICAO_TO_IATA code with
            | none => exact ⟨[], rfl⟩
            | some iata => exact ⟨[iata ++ num], rfl⟩
          · simp only [h3, if_false]
            exact ⟨[], rfl⟩

theorem adbWriteThrough_spec (fln fn : String) (now : Nat) (rec : RouteRecord)
    (st : TrackerState) :
    dictGet? (adbWriteThrough fln fn now rec st).route_cache fln = some rec ∧
    dictGet? (adbWriteThrough fln fn now rec st).route_cache_time fln = some now ∧
    (dictGet? st.route_database fln = none →
      dictGet? (adbWriteThrough fln fn now rec st).route_database fln = some rec) ∧
    (fn ≠ fln → dictGet? st.route_database fn = none →
      dictGet? (adbWriteThrough fln fn now rec st).route_database fn = some rec) ∧
    (adbWriteThrough fln fn now rec st).quota_exceeded = st.quota_exceeded ∧
    (adbWriteThrough fln fn now rec st).quota_exceeded_until = st.quota_exceeded_until ∧
    (adbWriteThrough fln fn now rec st).airport_cache = st.airport_cache ∧
    (∀ k rr, dictGet? st.route_database k = some rr →
      dictGet? (adbWriteThrough fln fn now rec st).route_database k = some rr) ∧
    (∀ k rr, dictGet? (adbWriteThrough fln fn now rec st).route_database k = some rr →
      dictGet? st.route_database k = some rr ∨ rr = rec) ∧
    (∀ k rr, dictGet? (adbWriteThrough fln fn now rec st).route_cache k = some rr →
      dictGet? st.route_cache k = some rr ∨ rr = rec) := by
  unfold adbWriteThrough
  by_cases hfn : fn ≠ fln
  · rw [if_pos hfn]
    refine ⟨dictGet?_dictSet_self _ _ _, dictGet?_dictSet_self _ _ _, ?_, ?_, rfl, rfl, rfl, ?_, ?_, ?_⟩
    · intro hnone
      exact recordDiscovered_preserves _ _ _ _ _ (recordDiscovered_new _ _ _ hnone)
    · intro _ hnone
      have h2 : dictGet? (recordDiscovered st.route_database fln rec) fn = none := by
        rw [recordDiscovered_get_ne _ _ _ _ (fun he => hfn he.symm)]
        exact hnone
      exact recordDiscovered_new _ _ _ h2
    · intro k rr hk
      exact recordDiscovered_preserves _ _ _ _ _ (recordDiscovered_preserves _ _ _ _ _ hk)
    · intro k rr hk
      rcases recordDiscovered_cases _ _ _ _ _ hk with h1 | h1
      · rcases recordDiscovered_cases _ _ _ _ _ h1 with h2 | h2
        · exact Or.inl h2
        · exact Or.inr h2
      · exact Or.inr h1
    · intro k rr hk
      exact dictGet?_dictSet_cases _ _ _ _ _ hk
  · rw [if_neg hfn]
    refine ⟨dictGet?_dictSet_self _ _ _, dictGet?_dictSet_self _ _ _, ?_, ?_, rfl, rfl, rfl, ?_, ?_, ?_⟩
    · intro hnone
      exact recordDiscovered_new _ _ _ hnone
    · intro hne
      exact absurd hne hfn
    · intro k rr hk
      exact recordDiscovered_preserves _ _ _ _ _ hk
    · intro k rr hk
      exact recordDiscovered_cases _ _ _ _ _ hk
    · intro k rr hk
      exact dictGet?_dictSet_cases _ _ _ _ _ hk

theorem adbTryEndpoints_exhausted_state (o : String → Nat → AdbResp)
    (fln : String) (now : Nat) (fn : String) :
    ∀ (eps : List Nat) (st : TrackerState) (calls : Nat) (st' : TrackerState)
      (c' : Nat),
    adbTryEndpoints o fln now fn eps st calls = .exhausted st' c' → st' = st := by
  intro eps
  induction eps with
  | nil =>
      intro st calls st' c' h
      unfold adbTryEndpoints at h
      cases h
      rfl
  | cons e rest ih =>
      intro st calls st' c' h
      unfold adbTryEndpoints at h
      split at h
      · exact ih st (calls + 1) st' c' h
      · exact ih st (calls + 1) st' c' h
      · exact ih st (calls + 1) st' c' h
      · cases h
      · split at h
        · cases h
        · exact ih st (calls + 1) st' c' h

theorem adbTryEndpoints_quotaStop_state (o : String → Nat → AdbResp)
    (fln : String) (now : Nat) (fn : String) :
    ∀ (eps : List Nat) (st : TrackerState) (calls : Nat) (st' : TrackerState)
      (c' : Nat),
    adbTryEndpoints o fln now fn eps st calls = .quotaStop st' c' →
    st' = { st with quota_exceeded := true,
                    quota_exceeded_until := now + 24 * 3600,
                    quota_error_logged := true } := by
  intro eps
  induction eps with
  | nil =>
      intro st calls st' c' h
      unfold adbTryEndpoints at h
      cases h
  | cons e rest ih =>
      intro st calls st' c' h
      unfold adbTryEndpoints at h
      split at h
      · exact ih st (calls + 1) st' c' h
      · exact ih st (calls + 1) st' c' h
      · exact ih st (calls + 1) st' c' h
      · cases h
        rfl
      · split at h
        · cases h
        · exact ih st (calls + 1) st' c' h

theorem adbTryEndpoints_found_spec (o : String → Nat → AdbResp)
    (fln : String) (now : Nat) (fn : String) :
    ∀ (eps : List Nat) (st : TrackerState) (calls : Nat) (f : String)
      (r : RouteRecord) (st' : TrackerState) (c' : Nat),
    adbTryEndpoints o fln now fn eps st calls = .found f r st' c' →
    f = fn ∧ (r.origin ≠ "" ∨ r.destination ≠ "") ∧
    st' = adbWriteThrough fln fn now r st := by
  intro eps
  induction eps with
  | nil =>
      intro st calls f r st' c' h
      unfold adbTryEndpoints at h
      cases h
  | cons e rest ih =>
      intro st calls f r st' c' h
      unfold adbTryEndpoints at h
      split at h
      · exact ih st (calls + 1) f r st' c' h
      · exact ih st (calls + 1) f r st' c' h
      · exact ih st (calls + 1) f r st' c' h
      · cases h
      · rename_i rec hrec
        split at h
        · rename_i hguard
          cases h
          exact ⟨rfl, hguard, rfl⟩
        · exact ih st (calls + 1) f r st' c' h

theorem adbTryEndpoints_calls_ge (o : String → Nat → AdbResp)
    (fln : String) (now : Nat) (fn : String) :
    ∀ (eps : List Nat) (st : TrackerState) (calls : Nat),
    calls ≤ (adbTryEndpoints o fln now fn eps st calls).calls := by
  intro eps
  induction eps with
  | nil =>
      intro st calls
      unfold adbTryEndpoints AdbLoop.calls
      exact Nat.le_refl _
  | cons e rest ih =>
      intro st calls
      unfold adbTryEndpoints
      split
      · exact Nat.le_trans (Nat.le_succ _) (ih st (calls + 1))
      · exact Nat.le_trans (Nat.le_succ _) (ih st (calls + 1))
      · exact Nat.le_trans (Nat.le_succ _) (ih st (calls + 1))
      · exact Nat.le_succ _
      · split
        · exact Nat.le_succ _
        · exact Nat.le_trans (Nat.le_succ _) (ih st (calls + 1))

theorem adbTryEndpoints_calls_pos (o : String → Nat → AdbResp)
    (fln : String) (now : Nat) (fn : String) (e : Nat) (rest : List Nat)
    (st : TrackerState) (calls : Nat) :
    calls + 1 ≤ (adbTryEndpoints o fln now fn (e :: rest) st calls).calls := by
  unfold adbTryEndpoints
  split
  · exact adbTryEndpoints_calls_ge o fln now fn rest st (calls + 1)
  · exact adbTryEndpoints_calls_ge o fln now fn rest st (calls + 1)
  · exact adbTryEndpoints_calls_ge o fln now fn rest st (calls + 1)
  · exact Nat.le_refl _
  · split
    · exact Nat.le_refl _
    · exact adbTryEndpoints_calls_ge o fln now fn rest st (calls + 1)

theorem adbTryAll_exhausted_state (o : String → Nat → AdbResp)
    (fln : String) (now : Nat) (eps : List Nat) :
    ∀ (vs : List String) (st : TrackerState) (calls : Nat)
      (st' : TrackerState) (c' : Nat),
    adbTryAll o fln now eps vs st calls = .exhausted st' c' → st' = st := by
  intro vs
  induction vs with
  | nil =>
      intro st calls st' c' h
      unfold adbTryAll at h
      cases h
      rfl
  | cons fn rest ih =>
      intro st calls st' c' h
      unfold adbTryAll at h
      split at h
      · cases h
      · cases h
      · rename_i st1 c1 heq
        have h1 := adbTryEndpoints_exhausted_state o fln now fn eps st calls st1 c1 heq
        rw [h1] at h
        exact ih st c1 st' c' h

theorem adbTryAll_quotaStop_state (o : String → Nat → AdbResp)
    (fln : String) (now : Nat) (eps : List Nat) :
    ∀ (vs : List String) (st : TrackerState) (calls : Nat)
      (st' : TrackerState) (c' : Nat),
    adbTryAll o fln now eps vs st calls = .quotaStop st' c' →
    st' = { st with quota_exceeded := true,
                    quota_exceeded_until := now + 24 * 3600,
                    quota_error_logged := true } := by
  intro vs
  induction vs with
  | nil =>
      intro st calls st' c' h
      unfold adbTryAll at h
      cases h
  | cons fn rest ih =>
      intro st calls st' c' h
      unfold adbTryAll at h
      split at h
      · cases h
      · rename_i st1 c1 heq
        cases h
        exact adbTryEndpoints_quotaStop_state o fln now fn eps st calls st' c' heq
      · rename_i st1 c1 heq
        have h1 := adbTryEndpoints_exhausted_state o fln now fn eps st calls st1 c1 heq
        rw [h1] at h
        exact ih st c1 st' c' h

theorem adbTryAll_found_spec (o : String → Nat → AdbResp)
    (fln : String) (now : Nat) (eps : List Nat) :
    ∀ (vs : List String) (st : TrackerState) (calls : Nat) (f : String)
      (r : RouteRecord) (st' : TrackerState) (c' : Nat),
    adbTryAll o fln now eps vs st calls = .found f r st' c' →
    f ∈ vs ∧ (r.origin ≠ "" ∨ r.destination ≠ "") ∧
    st' = adbWriteThrough fln f now r st := by
  intro vs
  induction vs with
  | nil =>
      intro st calls f r st' c' h
      unfold adbTryAll at h
      cases h
  | cons fn rest ih =>
      intro st calls f r st' c' h
      unfold adbTryAll at h
      split at h
      · rename_i f1 r1 st1 c1 heq
        cases h
        obtain ⟨hf, hguard, hst⟩ :=
          adbTryEndpoints_found_spec o fln now fn eps st calls f r st' c' heq
        subst hf
        exact ⟨List.mem_cons_self _ _, hguard, hst⟩
      · cases h
      · rename_i st1 c1 heq
        have h1 := adbTryEndpoints_exhausted_state o fln now fn eps st calls st1 c1 heq
        rw [h1] at h
        obtain ⟨hm, hguard, hst⟩ := ih st c1 f r st' c' h
        exact ⟨List.mem_cons_of_mem _ hm, hguard, hst⟩

theorem adbTryAll_calls_ge (o : String → Nat → AdbResp) (fln : String)
    (now : Nat) (eps : List Nat) :
    ∀ (vs : List String) (st : TrackerState) (calls : Nat),
    calls ≤ (adbTryAll o fln now eps vs st calls).calls := by
  intro vs
  induction vs with
  | nil =>
      intro st calls
      unfold adbTryAll AdbLoop.calls
      exact Nat.le_refl _
  | cons fn rest ih =>
      intro st calls
      unfold adbTryAll
      split
      · rename_i f1 r1 st1 c1 heq
        have := adbTryEndpoints_calls_ge o fln now fn eps st calls
        rw [heq] at this
        exact this
      · rename_i st1 c1 heq
        have := adbTryEndpoints_calls_ge o fln now fn eps st calls
        rw [heq] at this
        exact this
      · rename_i st1 c1 heq
        have hc1 := adbTryEndpoints_calls_ge o fln now fn eps st calls
        rw [heq] at hc1
        calc calls ≤ c1 := hc1
        _ ≤ _ := ih st1 c1

theorem adbTryAll_calls_pos (o : String → Nat → AdbResp) (fln : String)
    (now : Nat) (e : Nat) (epsRest : List Nat) (fn : String)
    (vsRest : List String) (st : TrackerState) (calls : Nat) :
    calls + 1 ≤ (adbTryAll o fln now (e :: epsRest) (fn :: vsRest) st calls).calls := by
  unfold adbTryAll
  split
  · rename_i f1 r1 st1 c1 heq
    have := adbTryEndpoints_calls_pos o fln now fn e epsRest st calls
    rw [heq] at this
    exact this
  · rename_i st1 c1 heq
    have := adbTryEndpoints_calls_pos o fln now fn e epsRest st calls
    rw [heq] at this
    exact this
  · rename_i st1 c1 heq
    have hc1 := adbTryEndpoints_calls_pos o fln now fn e epsRest st calls
    rw [heq] at hc1
    calc calls + 1 ≤ c1 := hc1
    _ ≤ _ := adbTryAll_calls_ge o fln now (e :: epsRest) vsRest st1 c1

theorem quotaReset_quota_false (st : TrackerState) :
    (quotaReset st).quota_exceeded = false := by
  unfold quotaReset
  by_cases h : st.quota_exceeded
  · rw [if_pos h]
  · rw [if_neg h]
    exact Bool.not_eq_true _ |>.mp h

theorem quotaReset_db (st : TrackerState) :
    (quotaReset st).route_database = st.route_database := by
  unfold quotaReset
  by_cases h : st.quota_exceeded
  · rw [if_pos h]
  · rw [if_neg h]

theorem quotaReset_cache (st : TrackerState) :
    (quotaReset st).route_cache = st.route_cache := by
  unfold quotaReset
  by_cases h : st.quota_exceeded
  · rw [if_pos h]
  · rw [if_neg h]

theorem aviationEdgeLookup_some_complete (ae : AEOracle)
    (clean : String → String) (key : String) :
    ∀ (vs : List String) (acache : List (String × (String × String)))
      (calls : Nat) (rec : RouteRecord)
      (ac : List (String × (String × String))) (c : Nat),
    aviationEdgeLookup ae clean key vs acache calls = (some rec, ac, c) →
    rec.origin ≠ "" ∧ rec.destination ≠ "" := by
  intro vs
  induction vs with
  | nil =>
      intro acache calls rec ac c h
      unfold aviationEdgeLookup at h
      cases h
  | cons fn rest ih =>
      intro acache calls rec ac c h
      unfold aviationEdgeLookup at h
      split at h
      · rename_i dep arr heq
        simp only [] at h
        split at h
        · rename_i hguard
          cases h
          exact hguard
        · exact ih acache (calls + 1) rec ac c h
      · exact ih acache (calls + 1) rec ac c h

theorem aviationEdgeLookup_calls_ge (ae : AEOracle)
    (clean : String → String) (key : String) :
    ∀ (vs : List String) (acache : List (String × (String × String)))
      (calls : Nat),
    calls ≤ (aviationEdgeLookup ae clean key vs acache calls).2.2 := by
  intro vs
  induction vs with
  | nil =>
      intro acache calls
      unfold aviationEdgeLookup
      exact Nat.le_refl _
  | cons fn rest ih =>
      intro acache calls
      unfold aviationEdgeLookup
      split
      · simp only []
        split
        · simp only []
          omega
        · exact Nat.le_trans (Nat.le_succ _) (ih acache (calls + 1))
      · exact Nat.le_trans (Nat.le_succ _) (ih acache (calls + 1))

theorem aviationEdgeLookup_calls_pos (ae : AEOracle)
    (clean : String → String) (key : String) (fn : String)
    (rest : List String) (acache : List (String × (String × String)))
    (calls : Nat) :
    calls + 1 ≤ (aviationEdgeLookup ae clean key (fn :: rest) acache calls).2.2 := by
  unfold aviationEdgeLookup
  split
  · simp only []
    split
    · simp only []
      omega
    · exact aviationEdgeLookup_calls_ge ae clean key rest acache (calls + 1)
  · exact aviationEdgeLookup_calls_ge ae clean key rest acache (calls + 1)

theorem lookup_step1_eq (cfg : Config) (ae : AEOracle)
    (adb : String → Nat → AdbResp) (clean : String → String)
    (st : TrackerState) (now : Nat) (raw : String) (rec : RouteRecord)
    (st' : TrackerState)
    (h : step1Database now (flight_numbers_to_try (pyStripUpper raw)) st
      = some (rec, st')) :
    lookup_flight_route cfg ae adb clean st now raw = ⟨rec, st', 0, 0⟩ := by
  unfold lookup_flight_route
  simp only [h]

theorem lookup_step2_eq (cfg : Config) (ae : AEOracle)
    (adb : String → Nat → AdbResp) (clean : String → String)
    (st : TrackerState) (now : Nat) (raw : String) (rec : RouteRecord)
    (h1 : step1Database now (flight_numbers_to_try (pyStripUpper raw)) st = none)
    (h2 : step2Cache now (flight_numbers_to_try (pyStripUpper raw)) st = some rec) :
    lookup_flight_route cfg ae adb clean st now raw = ⟨rec, st, 0, 0⟩ := by
  unfold lookup_flight_route
  simp only [h1, h2]

theorem lookup_ae_some_eq (cfg : Config) (ae : AEOracle)
    (adb : String → Nat → AdbResp) (clean : String → String)
    (st : TrackerState) (now : Nat) (raw : String) (rec : RouteRecord)
    (ac : List (String × (String × String))) (c : Nat)
    (h1 : step1Database now (flight_numbers_to_try (pyStripUpper raw)) st = none)
    (h2 : step2Cache now (flight_numbers_to_try (pyStripUpper raw)) st = none)
    (hprov : cfg.route_api_provider = "aviation_edge")
    (hkey : cfg.aviation_edge_key ≠ "")
    (hae : aviationEdgeLookup ae clean cfg.aviation_edge_key
      (flight_numbers_to_try (pyStripUpper raw)) st.airport_cache 0
      = (some rec, ac, c)) :
    lookup_flight_route cfg ae adb clean st now raw =
      ⟨rec,
       { st with airport_cache := ac,
                 route_database :=
                   recordDiscovered st.route_database (pyStripUpper raw) rec },
       c, 0⟩ := by
  unfold lookup_flight_route
  simp only [h1, h2, hae, if_pos (And.intro hprov hkey)]

theorem lookup_ae_none_eq (cfg : Config) (ae : AEOracle)
    (adb : String → Nat → AdbResp) (clean : String → String)
    (st : TrackerState) (now : Nat) (raw : String)
    (ac : List (String × (String × String))) (c : Nat)
    (h1 : step1Database now (flight_numbers_to_try (pyStripUpper raw)) st = none)
    (h2 : step2Cache now (flight_numbers_to_try (pyStripUpper raw)) st = none)
    (hprov : cfg.route_api_provider = "aviation_edge")
    (hkey : cfg.aviation_edge_key ≠ "")
    (hae : aviationEdgeLookup ae clean cfg.aviation_edge_key
      (flight_numbers_to_try (pyStripUpper raw)) st.airport_cache 0
      = (none, ac, c)) :
    lookup_flight_route cfg ae adb clean st now raw =
      ⟨emptyRecord, { st with airport_cache := ac }, c, 0⟩ := by
  unfold lookup_flight_route
  simp only [h1, h2, hae, if_pos (And.intro hprov hkey)]

theorem lookup_no_rapid_eq (cfg : Config) (ae : AEOracle)
    (adb : String → Nat → AdbResp) (clean : String → String)
    (st : TrackerState) (now : Nat) (raw : String)
    (h1 : step1Database now (flight_numbers_to_try (pyStripUpper raw)) st = none)
    (h2 : step2Cache now (flight_numbers_to_try (pyStripUpper raw)) st = none)
    (hnae : ¬ (cfg.route_api_provider = "aviation_edge" ∧ cfg.aviation_edge_key ≠ ""))
    (hrk : cfg.rapidapi_key = "") :
    lookup_flight_route cfg ae adb clean st now raw = ⟨emptyRecord, st, 0, 0⟩ := by
  unfold lookup_flight_route
  simp only [h1, h2, if_neg hnae, if_pos hrk]

theorem lookup_blocked_eq (cfg : Config) (ae : AEOracle)
    (adb : String → Nat → AdbResp) (clean : String → String)
    (st : TrackerState) (now : Nat) (raw : String)
    (h1 : step1Database now (flight_numbers_to_try (pyStripUpper raw)) st = none)
    (h2 : step2Cache now (flight_numbers_to_try (pyStripUpper raw)) st = none)
    (hnae : ¬ (cfg.route_api_provider = "aviation_edge" ∧ cfg.aviation_edge_key ≠ ""))
    (hrk : cfg.rapidapi_key ≠ "")
    (hq : st.quota_exceeded = true) (hu : now < st.quota_exceeded_until) :
    lookup_flight_route cfg ae adb clean st now raw = ⟨emptyRecord, st, 0, 0⟩ := by
  unfold lookup_flight_route
  simp only [h1, h2, if_neg hnae, if_neg hrk, if_pos (And.intro hq hu)]

theorem lookup_adb_eq (cfg : Config) (ae : AEOracle)
    (adb : String → Nat → AdbResp) (clean : String → String)
    (st : TrackerState) (now : Nat) (raw : String)
    (h1 : step1Database now (flight_numbers_to_try (pyStripUpper raw)) st = none)
    (h2 : step2Cache now (flight_numbers_to_try (pyStripUpper raw)) st = none)
    (hnae : ¬ (cfg.route_api_provider = "aviation_edge" ∧ cfg.aviation_edge_key ≠ ""))
    (hrk : cfg.rapidapi_key ≠ "")
    (hnb : ¬ (st.quota_exceeded = true ∧ now < st.quota_exceeded_until)) :
    lookup_flight_route cfg ae adb clean st now raw =
      (match adbTryAll adb (pyStripUpper raw) now
          (endpointsToTry (quotaReset st).quota_exceeded)
          (flight_numbers_to_try (pyStripUpper raw)) (quotaReset st) 0 with
       | .found _ rec st' c => ⟨rec, st', 0, c⟩
       | .quotaStop st' c => ⟨emptyRecord, st', 0, c⟩
       | .exhausted st' c => ⟨emptyRecord, st', 0, c⟩) := by
  unfold lookup_flight_route
  simp only [h1, h2, if_neg hnae, if_neg hrk, if_neg hnb]

/-- One provider response record with the origin filled in but the
destination empty, as produced e.g. by a 200 body carrying only a
`departure` block. -/
def halfRecord : RouteRecord := ⟨"DXB", "", "", "", "", ""⟩

/-- A complete Dubai-to-London record. -/
def recDXBLHR : RouteRecord := ⟨"DXB", "LHR", "Dubai", "London", "AE", "GB"⟩

/-- Aviation Edge oracle that never returns data. -/
def aeQuiet : AEOracle := ⟨fun _ => .failure, fun _ => .failure⟩

/-- Aviation Edge oracle that knows the route only under the IATA variant
EK215; airport-details lookups fail. -/
def aeFoundOnEK215 : AEOracle :=
  ⟨fun fn => if fn = "EK215" then .ok "DXB" "LHR" else .failure,
   fun _ => .failure⟩

/-- Aviation Edge oracle that returns a route for every variant. -/
def aeAlwaysRoute : AEOracle := ⟨fun _ => .ok "DXB" "LHR", fun _ => .failure⟩

/-- Configuration with Aerodatabox as the route provider and no Aviation
Edge key. -/
def cfgAdbOnly : Config := ⟨"aerodatabox", "", "RKEY"⟩

/-- Configuration with Aerodatabox selected as route provider while an
Aviation Edge key is nevertheless configured. -/
def cfgBothKeys : Config := ⟨"aerodatabox", "AEKEY", "RKEY"⟩

/-- Configuration with Aviation Edge as the primary route provider. -/
def cfgAePrimary : Config := ⟨"aviation_edge", "AEKEY", "RKEY"⟩

/-- A tracker state whose database already holds EK215. -/
def stWithEK215 : TrackerState :=
  { initialState with route_database := [("EK215", recDXBLHR)] }

/-- Aerodatabox oracle answering HTTP 429 to everything. -/
def adbQuota : String → Nat → AdbResp := fun _ _ => .quota

/-- Aerodatabox oracle answering HTTP 204 to everything. -/
def adbNoContent : String → Nat → AdbResp := fun _ _ => .noContent

/-- Aerodatabox oracle whose parsed 200 response has an origin but no
destination. -/
def adbHalf : String → Nat → AdbResp := fun _ _ => .ok halfRecord

theorem lookup_writes_spec (cfg : Config) (ae : AEOracle)
    (adb : String → Nat → AdbResp) (clean : String → String)
    (st : TrackerState) (now : Nat) (raw : String) :
    (∀ k r, dictGet? st.route_database k = some r →
      dictGet? (lookup_flight_route cfg ae adb clean st now raw).state.route_database k
        = some r) ∧
    (∀ k r,
      dictGet? (lookup_flight_route cfg ae adb clean st now raw).state.route_database k
        = some r →
      dictGet? st.route_database k = some r ∨
        ((r.origin ≠ "" ∨ r.destination ≠ "") ∧
         (cfg.route_api_provider = "aviation_edge" → cfg.aviation_edge_key ≠ "" →
           r.origin ≠ "" ∧ r.destination ≠ ""))) ∧
    (∀ k r,
      dictGet? (lookup_flight_route cfg ae adb clean st now raw).state.route_cache k
        = some r →
      dictGet? st.route_cache k = some r ∨ dictGet? st.route_database k = some r ∨
        r.origin ≠ "" ∨ r.destination ≠ "") := by
  cases hs1 : step1Database now (flight_numbers_to_try (pyStripUpper raw)) st with
  | some p =>
      obtain ⟨rec0, st0⟩ := p
      rw [lookup_step1_eq cfg ae adb clean st now raw rec0 st0 hs1]
      obtain ⟨fn, hmem, hget, hst0⟩ :=
        step1Database_some now (flight_numbers_to_try (pyStripUpper raw)) st rec0 st0 hs1
      subst hst0
      refine ⟨fun k r hk => hk, fun k r hk => Or.inl hk, fun k r hk => ?_⟩
      by_cases hkfn : fn = k
      · subst hkfn
        rw [dictGet?_dictSet_self] at hk
        rw [← (Option.some.inj hk)]
        exact Or.inr (Or.inl hget)
      · rw [dictGet?_dictSet_ne _ _ _ _ hkfn] at hk
        exact Or.inl hk
  | none =>
  cases hs2 : step2Cache now (flight_numbers_to_try (pyStripUpper raw)) st with
  | some rec0 =>
      rw [lookup_step2_eq cfg ae adb clean st now raw rec0 hs1 hs2]
      exact ⟨fun k r hk => hk, fun k r hk => Or.inl hk, fun k r hk => Or.inl hk⟩
  | none =>
  by_cases hp : cfg.route_api_provider = "aviation_edge" ∧ cfg.aviation_edge_key ≠ ""
  · cases hae : aviationEdgeLookup ae clean cfg.aviation_edge_key
        (flight_numbers_to_try (pyStripUpper raw)) st.airport_cache 0 with
    | mk o rest =>
        obtain ⟨ac, c⟩ := rest
        cases o with
        | some rec0 =>
            rw [lookup_ae_some_eq cfg ae adb clean st now raw rec0 ac c hs1 hs2 hp.1 hp.2 hae]
            have hcomplete :=
              aviationEdgeLookup_some_complete ae clean cfg.aviation_edge_key
                (flight_numbers_to_try (pyStripUpper raw)) st.airport_cache 0 rec0 ac c hae
            refine ⟨?_, ?_, fun k r hk => Or.inl hk⟩
            · intro k r hk
              exact recordDiscovered_preserves _ _ _ _ _ hk
            · intro k r hk
              rcases recordDiscovered_cases _ _ _ _ _ hk with h1 | h1
              · exact Or.inl h1
              · subst h1
                exact Or.inr ⟨Or.inl hcomplete.1, fun _ _ => hcomplete⟩
        | none =>
            rw [lookup_ae_none_eq cfg ae adb clean st now raw ac c hs1 hs2 hp.1 hp.2 hae]
            exact ⟨fun k r hk => hk, fun k r hk => Or.inl hk, fun k r hk => Or.inl hk⟩
  · by_cases hrk : cfg.rapidapi_key = ""
    · rw [lookup_no_rapid_eq cfg ae adb clean st now raw hs1 hs2 hp hrk]
      exact ⟨fun k r hk => hk, fun k r hk => Or.inl hk, fun k r hk => Or.inl hk⟩
    · by_cases hnb : st.quota_exceeded = true ∧ now < st.quota_exceeded_until
      · rw [lookup_blocked_eq cfg ae adb clean st now raw hs1 hs2 hp hrk hnb.1 hnb.2]
        exact ⟨fun k r hk => hk, fun k r hk => Or.inl hk, fun k r hk => Or.inl hk⟩
      · rw [lookup_adb_eq cfg ae adb clean st now raw hs1 hs2 hp hrk hnb]
        cases hA : adbTryAll adb (pyStripUpper raw) now
            (endpointsToTry (quotaReset st).quota_exceeded)
            (flight_numbers_to_try (pyStripUpper raw)) (quotaReset st) 0 with
        | found f rec0 st' c =>
            obtain ⟨hmem, hguard, hst'⟩ :=
              adbTryAll_found_spec adb (pyStripUpper raw) now _ _ _ _ f rec0 st' c hA
            subst hst'
            obtain ⟨w1, w2, w3, w4, w5, w6, w7, w8, w9, w10⟩ :=
              adbWriteThrough_spec (pyStripUpper raw) f now rec0 (quotaReset st)
            refine ⟨?_, ?_, ?_⟩
            · intro k r hk
              apply w8
              rw [quotaReset_db]
              exact hk
            · intro k r hk
              rcases w9 k r hk with h1 | h1
              · rw [quotaReset_db] at h1
                exact Or.inl h1
              · subst h1
                exact Or.inr ⟨hguard, fun hprov hkey => absurd ⟨hprov, hkey⟩ hp⟩
            · intro k r hk
              rcases w10 k r hk with h1 | h1
              · rw [quotaReset_cache] at h1
                exact Or.inl h1
              · subst h1
                exact Or.inr (Or.inr hguard)
        | quotaStop st' c =>
            have hst' := adbTryAll_quotaStop_state adb (pyStripUpper raw) now _ _ _ _ st' c hA
            subst hst'
            refine ⟨?_, ?_, ?_⟩
            · intro k r hk
              simp only [quotaReset_db]
              exact hk
            · intro k r hk
              simp only [quotaReset_db] at hk
              exact Or.inl hk
            · intro k r hk
              simp only [quotaReset_cache] at hk
              exact Or.inl hk
        | exhausted st' c =>
            have hst' := adbTryAll_exhausted_state adb (pyStripUpper raw) now _ _ _ _ st' c hA
            subst hst'
            refine ⟨?_, ?_, ?_⟩
            · intro k r hk
              simp only [quotaReset_db]
              exact hk
            · intro k r hk
              simp only [quotaReset_db] at hk
              exact Or.inl hk
            · intro k r hk
              simp only [quotaReset_cache] at hk
              exact Or.inl hk

/-- Aerodatabox oracle that knows the route only under the variant EK215
and answers 204 otherwise. -/
def adbFoundOnEK215 : String → Nat → AdbResp :=
  fun fn _ => if fn = "EK215" then .ok recDXBLHR else .noContent

/-- A tracker state with a cache entry for EK215 inserted at time 100. -/
def stCacheT100 : TrackerState :=
  { initialState with route_cache := [("EK215", recDXBLHR)],
                      route_cache_time := [("EK215", 100)] }

theorem lookup_quota_spec (cfg : Config) (ae : AEOracle)
    (adb : String → Nat → AdbResp) (clean : String → String)
    (st : TrackerState) (now : Nat) (raw : String) :
    (lookup_flight_route cfg ae adb clean st now raw).state.quota_exceeded = true →
    st.quota_exceeded = true ∨
      (lookup_flight_route cfg ae adb clean st now raw).state.quota_exceeded_until
        = now + 24 * 3600 := by
  cases hs1 : step1Database now (flight_numbers_to_try (pyStripUpper raw)) st with
  | some p =>
      obtain ⟨rec0, st0⟩ := p
      rw [lookup_step1_eq cfg ae adb clean st now raw rec0 st0 hs1]
      obtain ⟨fn, hmem, hget, hst0⟩ :=
        step1Database_some now (flight_numbers_to_try (pyStripUpper raw)) st rec0 st0 hs1
      subst hst0
      exact fun h => Or.inl h
  | none =>
  cases hs2 : step2Cache now (flight_numbers_to_try (pyStripUpper raw)) st with
  | some rec0 =>
      rw [lookup_step2_eq cfg ae adb clean st now raw rec0 hs1 hs2]
      exact fun h => Or.inl h
  | none =>
  by_cases hp : cfg.route_api_provider = "aviation_edge" ∧ cfg.aviation_edge_key ≠ ""
  · cases hae : aviationEdgeLookup ae clean cfg.aviation_edge_key
        (flight_numbers_to_try (pyStripUpper raw)) st.airport_cache 0 with
    | mk o rest =>
        obtain ⟨ac, c⟩ := rest
        cases o with
        | some rec0 =>
            rw [lookup_ae_some_eq cfg ae adb clean st now raw rec0 ac c hs1 hs2 hp.1 hp.2 hae]
            exact fun h => Or.inl h
        | none =>
            rw [lookup_ae_none_eq cfg ae adb clean st now raw ac c hs1 hs2 hp.1 hp.2 hae]
            exact fun h => Or.inl h
  · by_cases hrk : cfg.rapidapi_key = ""
    · rw [lookup_no_rapid_eq cfg ae adb clean st now raw hs1 hs2 hp hrk]
      exact fun h => Or.inl h
    · by_cases hnb : st.quota_exceeded = true ∧ now < st.quota_exceeded_until
      · rw [lookup_blocked_eq cfg ae adb clean st now raw hs1 hs2 hp hrk hnb.1 hnb.2]
        exact fun h => Or.inl h
      · rw [lookup_adb_eq cfg ae adb clean st now raw hs1 hs2 hp hrk hnb]
        cases hA : adbTryAll adb (pyStripUpper raw) now
            (endpointsToTry (quotaReset st).quota_exceeded)
            (flight_numbers_to_try (pyStripUpper raw)) (quotaReset st) 0 with
        | found f rec0 st' c =>
            obtain ⟨hmem, hguard, hst'⟩ :=
              adbTryAll_found_spec adb (pyStripUpper raw) now _ _ _ _ f rec0 st' c hA
            subst hst'
            intro h
            obtain ⟨w1, w2, w3, w4, w5, w6, w7, w8, w9, w10⟩ :=
              adbWriteThrough_spec (pyStripUpper raw) f now rec0 (quotaReset st)
            rw [w5, quotaReset_quota_false] at h
            cases h
        | quotaStop st' c =>
            have hst' := adbTryAll_quotaStop_state adb (pyStripUpper raw) now _ _ _ _ st' c hA
            subst hst'
            exact fun _ => Or.inr rfl
        | exhausted st' c =>
            have hst' := adbTryAll_exhausted_state adb (pyStripUpper raw) now _ _ _ _ st' c hA
            subst hst'
            intro h
            rw [quotaReset_quota_false] at h
            cases h

/-- C1 counterexample: in the Aerodatabox path a 200 response whose parsed
record has a non-empty origin but an empty destination (e.g. a body with
only a departure block) is nevertheless cached and persisted, because the
guard at line 757 is `if origin or destination`.  This refutes the claim
that a record with an empty destination is never written to the route
cache or the route database. -/
theorem claim_C1_counterexample :
    halfRecord.destination = "" ∧
    dictGet? (lookup_flight_route cfgAdbOnly aeQuiet adbHalf id initialState 0
        "EK215").state.route_database "EK215" = some halfRecord ∧
    dictGet? (lookup_flight_route cfgAdbOnly aeQuiet adbHalf id initialState 0
        "EK215").state.route_cache "EK215" = some halfRecord := by
  decide

/-- C1 (amended): every record newly written to the route database or the
route cache has origin or destination non-empty (the Aerodatabox guard is
`origin or destination`, not `and`); when Aviation Edge is the configured
route provider, every newly persisted record is complete (both origin and
destination non-empty); new cache entries additionally may be copies of
database entries (STEP 1 refresh). -/
theorem claim_C1_amended (cfg : Config) (ae : AEOracle)
    (adb : String → Nat → AdbResp) (clean : String → String)
    (st : TrackerState) (now : Nat) (raw : String) (k : String)
    (r : RouteRecord) :
    (dictGet? (lookup_flight_route cfg ae adb clean st now raw).state.route_database k
        = some r →
      dictGet? st.route_database k = some r ∨ r.origin ≠ "" ∨ r.destination ≠ "") ∧
    (cfg.route_api_provider = "aviation_edge" → cfg.aviation_edge_key ≠ "" →
      dictGet? (lookup_flight_route cfg ae adb clean st now raw).state.route_database k
        = some r →
      dictGet? st.route_database k = some r ∨ (r.origin ≠ "" ∧ r.destination ≠ "")) ∧
    (dictGet? (lookup_flight_route cfg ae adb clean st now raw).state.route_cache k
        = some r →
      dictGet? st.route_cache k = some r ∨ dictGet? st.route_database k = some r ∨
        r.origin ≠ "" ∨ r.destination ≠ "") := by
  obtain ⟨w1, w2, w3⟩ := lookup_writes_spec cfg ae adb clean st now raw
  refine ⟨?_, ?_, w3 k r⟩
  · intro h
    rcases w2 k r h with h1 | ⟨hg, _⟩
    · exact Or.inl h1
    · exact Or.inr hg
  · intro hprov hkey h
    rcases w2 k r h with h1 | ⟨_, himp⟩
    · exact Or.inl h1
    · exact Or.inr (himp hprov hkey)

theorem claim_C1_witness :
    dictGet? initialState.route_database "EK215" = some halfRecord ∨
      halfRecord.origin ≠ "" ∨ halfRecord.destination ≠ "" :=
  (claim_C1_amended cfgAdbOnly aeQuiet adbHalf id initialState 0 "EK215"
    "EK215" halfRecord).1 (by decide)

/-- C2: an identifier whose record is already in the route database (under
any expanded variant) is answered from the database with zero provider
requests of either kind; the variants are tried in order and the first one
present wins. -/
theorem claim_C2 (cfg : Config) (ae : AEOracle)
    (adb : String → Nat → AdbResp) (clean : String → String)
    (st : TrackerState) (now : Nat) (raw : String) (l1 l2 : List String)
    (fn : String) (rec : RouteRecord)
    (hsplit : flight_numbers_to_try (pyStripUpper raw) = l1 ++ fn :: l2)
    (hmiss : ∀ g ∈ l1, dictGet? st.route_database g = none)
    (hhit : dictGet? st.route_database fn = some rec) :
    (lookup_flight_route cfg ae adb clean st now raw).result = rec ∧
    (lookup_flight_route cfg ae adb clean st now raw).aeCalls = 0 ∧
    (lookup_flight_route cfg ae adb clean st now raw).adbCalls = 0 := by
  have h := step1Database_first_hit now st fn rec l1 l2 hmiss hhit
  rw [← hsplit] at h
  rw [lookup_step1_eq cfg ae adb clean st now raw _ _ h]
  exact ⟨rfl, rfl, rfl⟩

theorem claim_C2_witness :
    (lookup_flight_route cfgAdbOnly aeQuiet adbQuota id stWithEK215 50
      " uae215 ").result = recDXBLHR ∧
    (lookup_flight_route cfgAdbOnly aeQuiet adbQuota id stWithEK215 50
      " uae215 ").aeCalls = 0 ∧
    (lookup_flight_route cfgAdbOnly aeQuiet adbQuota id stWithEK215 50
      " uae215 ").adbCalls = 0 :=
  claim_C2 cfgAdbOnly aeQuiet adbQuota id stWithEK215 50 " uae215 "
    ["UAE215"] [] "EK215" recDXBLHR (by decide) (by decide) (by decide)

/-- C5: identifier expansion on the cleaned input: a match of the pattern
with a 3-letter airline code present in the ICAO table yields exactly two
variants, original first and IATA-prefixed second; a failed match yields
the singleton list with the raw identifier. -/
theorem claim_C5 (s airline_code flight_num iata_code : String) :
    (matchFlightPattern s = some (airline_code, flight_num) →
      airline_code.length = 3 →
      dictGet? ICAO_TO_IATA airline_code = some iata_code →
      flight_numbers_to_try s = [s, iata_code ++ flight_num]) ∧
    (matchFlightPattern s = none → flight_numbers_to_try s = [s]) := by
  constructor
  · intro h1 h2 h3
    unfold flight_numbers_to_try
    rw [h1]
    simp only [h2, if_true, h3]
  · intro h
    unfold flight_numbers_to_try
    rw [h]

theorem claim_C5_witness :
    flight_numbers_to_try (pyStripUpper " uae215 ") = ["UAE215", "EK215"] ∧
    flight_numbers_to_try "UAE8LT" = ["UAE8LT"] := by
  constructor
  · rw [(claim_C5 (pyStripUpper " uae215 ") "UAE" "215" "EK").1
      (by decide) (by decide) (by decide)]
    decide
  · exact (claim_C5 "UAE8LT" "" "" "").2 (by decide)

/-- C7: first-writer-wins for the route database: the guarded insert is a
no-op when the key is present, so two successive writes keep the first
value, a write never disturbs other entries, and a full resolution call
never overwrites an existing database entry. -/
theorem claim_C7 (db : List (String × RouteRecord)) (key : String)
    (r1 r2 : RouteRecord) (cfg : Config) (ae : AEOracle)
    (adb : String → Nat → AdbResp) (clean : String → String)
    (st : TrackerState) (now : Nat) (raw : String) (k : String)
    (r : RouteRecord) :
    (dictGet? db key = none →
      dictGet? (recordDiscovered (recordDiscovered db key r1) key r2) key
        = some r1) ∧
    (∀ k0 r0, dictGet? db k0 = some r0 →
      dictGet? (recordDiscovered db key r1) k0 = some r0) ∧
    (dictGet? st.route_database k = some r →
      dictGet? (lookup_flight_route cfg ae adb clean st now raw).state.route_database k
        = some r) := by
  refine ⟨?_, ?_, ?_⟩
  · intro h
    exact recordDiscovered_preserves _ _ _ _ _ (recordDiscovered_new _ _ _ h)
  · intro k0 r0 h
    exact recordDiscovered_preserves _ _ _ _ _ h
  · exact (lookup_writes_spec cfg ae adb clean st now raw).1 k r

theorem claim_C7_witness :
    dictGet? (recordDiscovered (recordDiscovered [] "EK215" recDXBLHR)
      "EK215" halfRecord) "EK215" = some recDXBLHR ∧
    dictGet? (lookup_flight_route cfgAdbOnly aeQuiet adbHalf id stWithEK215 0
      "EK215").state.route_database "EK215" = some recDXBLHR := by
  constructor
  · exact (claim_C7 [] "EK215" recDXBLHR halfRecord cfgAdbOnly aeQuiet adbHalf
      id initialState 0 "EK215" "EK215" recDXBLHR).1 (by decide)
  · exact (claim_C7 [] "EK215" recDXBLHR halfRecord cfgAdbOnly aeQuiet adbHalf
      id stWithEK215 0 "EK215" "EK215" recDXBLHR).2.2 (by decide)

/-- C8 counterexample: a corrupt persisted file is not surfaced as a
storage error: `_load_route_database` catches the exception, prints a
warning, and silently starts with the empty store, indistinguishable from
a missing file; the spec-modelled `Load` contract would instead fail. -/
theorem claim_C8_counterexample :
    loadRouteDatabase .corrupt = [] ∧
    loadRouteDatabase .corrupt = loadRouteDatabase .missing ∧
    loadRouteStoreSpec .corrupt = .error () :=
  ⟨rfl, rfl, rfl⟩

/-- C8 (amended): a missing file is not an error and yields the empty map;
malformed persisted data is caught, a warning is printed, and the store
likewise starts empty (no error is surfaced); a valid file loads as is. -/
theorem claim_C8_amended :
    loadRouteDatabase .missing = [] ∧
    loadRouteDatabase .corrupt = [] ∧
    ∀ db, loadRouteDatabase (.valid db) = db :=
  ⟨rfl, rfl, fun _ => rfl⟩

theorem claim_C8_witness :
    loadRouteDatabase (.valid [("EK215", recDXBLHR)]) = [("EK215", recDXBLHR)] :=
  claim_C8_amended.2.2 [("EK215", recDXBLHR)]

/-- C10: the airport-details helper caches negative results permanently:
a failed or errored lookup for a non-empty code (with a key configured)
stores `("", "")` in the in-process cache; any later call for a cached
code returns the cached pair without a request and leaves the cache
unchanged; no call ever changes an entry already in the cache. -/
theorem claim_C10 (clean : String → String) (key : String)
    (cache : List (String × (String × String))) (code : String)
    (resp : AirportResp) :
    (code ≠ "" → key ≠ "" → dictGet? cache code = none → resp = .failure →
      getAirportDetails clean key cache code resp
        = (("", ""), dictSet cache code ("", ""), true)) ∧
    (∀ v, code ≠ "" → key ≠ "" → dictGet? cache code = some v →
      getAirportDetails clean key cache code resp = (v, cache, false)) ∧
    (∀ k v, dictGet? cache k = some v →
      dictGet? (getAirportDetails clean key cache code resp).2.1 k = some v) := by
  refine ⟨?_, ?_, ?_⟩
  · intro hc hk hnone hresp
    subst hresp
    unfold getAirportDetails
    rw [if_neg (by push_neg; exact ⟨hc, hk⟩)]
    simp only [hnone]
  · intro v hc hk hsome
    unfold getAirportDetails
    rw [if_neg (by push_neg; exact ⟨hc, hk⟩)]
    simp only [hsome]
  · intro k v h
    unfold getAirportDetails
    by_cases hif : code = "" ∨ key = ""
    · rw [if_pos hif]
      exact h
    · rw [if_neg hif]
      cases hcode : dictGet? cache code with
      | some w => simp only []; exact h
      | none =>
          cases resp with
          | ok nameAirport codeIso2Country =>
              simp only []
              have hne : code ≠ k := fun he => by rw [he] at hcode; rw [hcode] at h; cases h
              rw [dictGet?_dictSet_ne _ _ _ _ hne]
              exact h
          | failure =>
              simp only []
              have hne : code ≠ k := fun he => by rw [he] at hcode; rw [hcode] at h; cases h
              rw [dictGet?_dictSet_ne _ _ _ _ hne]
              exact h

theorem claim_C10_witness :
    getAirportDetails id "AEKEY" [] "DXB" .failure
      = (("", ""), dictSet [] "DXB" ("", ""), true) ∧
    getAirportDetails id "AEKEY" [("DXB", ("", ""))] "DXB" .failure
      = (("", ""), [("DXB", ("", ""))], false) := by
  constructor
  · exact (claim_C10 id "AEKEY" [] "DXB" .failure).1
      (by decide) (by decide) (by decide) rfl
  · exact (claim_C10 id "AEKEY" [("DXB", ("", ""))] "DXB" .failure).2.1
      ("", "") (by decide) (by decide) (by decide)

/-- A tracker state whose quota circuit breaker is open until time 500. -/
def stBlocked : TrackerState :=
  { initialState with quota_exceeded := true, quota_exceeded_until := 500 }

/-- A state where the database and the (unexpired) cache disagree about
EK215: the database holds the complete record, the cache a stale partial
one. -/
def stDbAndStaleCache : TrackerState :=
  { initialState with route_database := [("EK215", recDXBLHR)],
                      route_cache := [("EK215", halfRecord)],
                      route_cache_time := [("EK215", 40)] }

/-- C3: a 429 response sets the block to `now + 24h` (any call that newly
trips the flag records exactly that timestamp); while the current time is
strictly before the timestamp, a lookup makes zero Aerodatabox requests
for any variant; and once the current time reaches the timestamp the
block is cleared and requests resume. -/
theorem claim_C3 (cfg : Config) (ae : AEOracle)
    (adb : String → Nat → AdbResp) (clean : String → String)
    (st : TrackerState) (now : Nat) (raw : String) :
    (st.quota_exceeded = false →
      (lookup_flight_route cfg ae adb clean st now raw).state.quota_exceeded = true →
      (lookup_flight_route cfg ae adb clean st now raw).state.quota_exceeded_until
        = now + 24 * 3600) ∧
    (st.quota_exceeded = true → now < st.quota_exceeded_until →
      (lookup_flight_route cfg ae adb clean st now raw).adbCalls = 0) ∧
    (st.quota_exceeded = true → st.quota_exceeded_until ≤ now →
      ¬ (cfg.route_api_provider = "aviation_edge" ∧ cfg.aviation_edge_key ≠ "") →
      cfg.rapidapi_key ≠ "" →
      step1Database now (flight_numbers_to_try (pyStripUpper raw)) st = none →
      step2Cache now (flight_numbers_to_try (pyStripUpper raw)) st = none →
      0 < (lookup_flight_route cfg ae adb clean st now raw).adbCalls) := by
  refine ⟨?_, ?_, ?_⟩
  · intro hq0 hq1
    rcases lookup_quota_spec cfg ae adb clean st now raw hq1 with h | h
    · rw [hq0] at h; cases h
    · exact h
  · intro hq hu
    cases hs1 : step1Database now (flight_numbers_to_try (pyStripUpper raw)) st with
    | some p =>
        obtain ⟨rec0, st0⟩ := p
        rw [lookup_step1_eq cfg ae adb clean st now raw rec0 st0 hs1]
    | none =>
    cases hs2 : step2Cache now (flight_numbers_to_try (pyStripUpper raw)) st with
    | some rec0 =>
        rw [lookup_step2_eq cfg ae adb clean st now raw rec0 hs1 hs2]
    | none =>
    by_cases hp : cfg.route_api_provider = "aviation_edge" ∧ cfg.aviation_edge_key ≠ ""
    · cases hae : aviationEdgeLookup ae clean cfg.aviation_edge_key
          (flight_numbers_to_try (pyStripUpper raw)) st.airport_cache 0 with
      | mk o rest =>
          obtain ⟨ac, c⟩ := rest
          cases o with
          | some rec0 =>
              rw [lookup_ae_some_eq cfg ae adb clean st now raw rec0 ac c hs1 hs2 hp.1 hp.2 hae]
          | none =>
              rw [lookup_ae_none_eq cfg ae adb clean st now raw ac c hs1 hs2 hp.1 hp.2 hae]
    · by_cases hrk : cfg.rapidapi_key = ""
      · rw [lookup_no_rapid_eq cfg ae adb clean st now raw hs1 hs2 hp hrk]
      · rw [lookup_blocked_eq cfg ae adb clean st now raw hs1 hs2 hp hrk hq hu]
  · intro hq hu hp hrk hs1 hs2
    have hnb : ¬ (st.quota_exceeded = true ∧ now < st.quota_exceeded_until) := by
      intro hcontra
      omega
    rw [lookup_adb_eq cfg ae adb clean st now raw hs1 hs2 hp hrk hnb]
    obtain ⟨t, ht⟩ := flight_numbers_to_try_head (pyStripUpper raw)
    have heps : endpointsToTry (quotaReset st).quota_exceeded = [0, 1, 2] := by
      rw [quotaReset_quota_false]
      rfl
    rw [heps, ht]
    have hpos := adbTryAll_calls_pos adb (pyStripUpper raw) now 0 [1, 2]
      (pyStripUpper raw) t (quotaReset st) 0
    cases hA : adbTryAll adb (pyStripUpper raw) now [0, 1, 2]
        (pyStripUpper raw :: t) (quotaReset st) 0 with
    | found f rec0 st' c =>
        rw [hA] at hpos
        exact hpos
    | quotaStop st' c =>
        rw [hA] at hpos
        exact hpos
    | exhausted st' c =>
        rw [hA] at hpos
        exact hpos

theorem claim_C3_witness :
    (lookup_flight_route cfgAdbOnly aeQuiet adbQuota id initialState 100
      "EK215").state.quota_exceeded_until = 100 + 24 * 3600 ∧
    (lookup_flight_route cfgAdbOnly aeQuiet adbQuota id stBlocked 499
      "EK215").adbCalls = 0 ∧
    0 < (lookup_flight_route cfgAdbOnly aeQuiet adbNoContent id stBlocked 500
      "EK215").adbCalls := by
  refine ⟨?_, ?_, ?_⟩
  · exact (claim_C3 cfgAdbOnly aeQuiet adbQuota id initialState 100 "EK215").1
      (by decide) (by decide)
  · exact (claim_C3 cfgAdbOnly aeQuiet adbQuota id stBlocked 499 "EK215").2.1
      (by decide) (by decide)
  · exact (claim_C3 cfgAdbOnly aeQuiet adbNoContent id stBlocked 500 "EK215").2.2
      (by decide) (by decide) (by decide) (by decide) (by decide) (by decide)

/-- C4 counterexample: with Aerodatabox as the configured route provider
and an Aviation Edge key also present (an oracle that would answer every
variant), a 429 on the very first request ends the whole call with the
empty record after exactly one Aerodatabox request and zero Aviation Edge
requests: the chain does not continue to any other provider within the
call. -/
theorem claim_C4_counterexample :
    lookup_flight_route cfgBothKeys aeAlwaysRoute adbQuota id initialState 100
        "EK215"
      = ⟨emptyRecord,
         { initialState with quota_exceeded := true,
                             quota_exceeded_until := 100 + 24 * 3600,
                             quota_error_logged := true },
         0, 1⟩ := by
  decide

/-- C4 (amended): an HTTP 429 from Aerodatabox sets that provider's
24-hour block and immediately ends the resolution call with the empty
result — no other provider is tried in the same call (the chain consults
at most one route provider per call).  The block is specific to
Aerodatabox: a later call with Aviation Edge configured as the route
provider still issues Aviation Edge requests regardless of the
Aerodatabox quota state. -/
theorem claim_C4_amended (cfg : Config) (ae : AEOracle)
    (adb : String → Nat → AdbResp) (clean : String → String)
    (st : TrackerState) (now : Nat) (raw : String) :
    ((∀ fn ep, adb fn ep = .quota) →
      ¬ (cfg.route_api_provider = "aviation_edge" ∧ cfg.aviation_edge_key ≠ "") →
      cfg.rapidapi_key ≠ "" →
      ¬ (st.quota_exceeded = true ∧ now < st.quota_exceeded_until) →
      step1Database now (flight_numbers_to_try (pyStripUpper raw)) st = none →
      step2Cache now (flight_numbers_to_try (pyStripUpper raw)) st = none →
      (lookup_flight_route cfg ae adb clean st now raw).result = emptyRecord ∧
      (lookup_flight_route cfg ae adb clean st now raw).aeCalls = 0 ∧
      (lookup_flight_route cfg ae adb clean st now raw).adbCalls = 1 ∧
      (lookup_flight_route cfg ae adb clean st now raw).state.quota_exceeded = true ∧
      (lookup_flight_route cfg ae adb clean st now raw).state.quota_exceeded_until
        = now + 24 * 3600) ∧
    (cfg.route_api_provider = "aviation_edge" → cfg.aviation_edge_key ≠ "" →
      step1Database now (flight_numbers_to_try (pyStripUpper raw)) st = none →
      step2Cache now (flight_numbers_to_try (pyStripUpper raw)) st = none →
      0 < (lookup_flight_route cfg ae adb clean st now raw).aeCalls) := by
  constructor
  · intro hall hp hrk hnb hs1 hs2
    rw [lookup_adb_eq cfg ae adb clean st now raw hs1 hs2 hp hrk hnb]
    obtain ⟨t, ht⟩ := flight_numbers_to_try_head (pyStripUpper raw)
    have heps : endpointsToTry (quotaReset st).quota_exceeded = [0, 1, 2] := by
      rw [quotaReset_quota_false]
      rfl
    have hq1 : adbTryEndpoints adb (pyStripUpper raw) now (pyStripUpper raw)
        [0, 1, 2] (quotaReset st) 0
        = .quotaStop
            { quotaReset st with quota_exceeded := true,
                                 quota_exceeded_until := now + 24 * 3600,
                                 quota_error_logged := true } 1 := by
      unfold adbTryEndpoints
      rw [hall (pyStripUpper raw) 0]
    have hA : adbTryAll adb (pyStripUpper raw) now [0, 1, 2]
        (pyStripUpper raw :: t) (quotaReset st) 0
        = .quotaStop
            { quotaReset st with quota_exceeded := true,
                                 quota_exceeded_until := now + 24 * 3600,
                                 quota_error_logged := true } 1 := by
      unfold adbTryAll
      rw [hq1]
    rw [heps, ht, hA]
    exact ⟨rfl, rfl, rfl, rfl, rfl⟩
  · intro hprov hkey hs1 hs2
    obtain ⟨t, ht⟩ := flight_numbers_to_try_head (pyStripUpper raw)
    cases hae : aviationEdgeLookup ae clean cfg.aviation_edge_key
        (flight_numbers_to_try (pyStripUpper raw)) st.airport_cache 0 with
    | mk o rest =>
        obtain ⟨ac, c⟩ := rest
        have hpos := aviationEdgeLookup_calls_pos ae clean cfg.aviation_edge_key
          (pyStripUpper raw) t st.airport_cache 0
        rw [← ht, hae] at hpos
        cases o with
        | some rec0 =>
            rw [lookup_ae_some_eq cfg ae adb clean st now raw rec0 ac c hs1 hs2 hprov hkey hae]
            exact hpos
        | none =>
            rw [lookup_ae_none_eq cfg ae adb clean st now raw ac c hs1 hs2 hprov hkey hae]
            exact hpos

theorem claim_C4_witness :
    (lookup_flight_route cfgAdbOnly aeQuiet adbQuota id initialState 100
      "EK215").adbCalls = 1 ∧
    0 < (lookup_flight_route cfgAePrimary aeAlwaysRoute adbQuota id stBlocked
      300 "EK215").aeCalls := by
  constructor
  · exact ((claim_C4_amended cfgAdbOnly aeQuiet adbQuota id initialState 100
      "EK215").1 (fun _ _ => rfl) (by decide) (by decide) (by decide)
      (by decide) (by decide)).2.2.1
  · exact (claim_C4_amended cfgAePrimary aeAlwaysRoute adbQuota id stBlocked
      300 "EK215").2 rfl (by decide) (by decide) (by decide)

/-- C6: a cache hit requires the lookup time to be strictly below the
insertion time plus the 3600-second TTL; when every variant's entry has
reached its expiry the cache yields nothing (the lookup then proceeds,
the store having been consulted first — a store hit wins regardless of
the cache contents); and cache insertion overwrites unconditionally. -/
theorem claim_C6 (variants : List String) (st : TrackerState) (now : Nat)
    (cfg : Config) (ae : AEOracle) (adb : String → Nat → AdbResp)
    (clean : String → String) (raw : String) (rec : RouteRecord)
    (st' : TrackerState) (c : List (String × RouteRecord)) (k : String)
    (v : RouteRecord) :
    (step2Cache now variants st = some rec →
      ∃ fn ∈ variants, dictGet? st.route_cache fn = some rec ∧
        now < ((dictGet? st.route_cache_time fn).getD 0) + route_cache_ttl) ∧
    ((∀ fn ∈ variants,
        ((dictGet? st.route_cache_time fn).getD 0) + route_cache_ttl ≤ now) →
      step2Cache now variants st = none) ∧
    (step1Database now (flight_numbers_to_try (pyStripUpper raw)) st
        = some (rec, st') →
      (lookup_flight_route cfg ae adb clean st now raw).result = rec) ∧
    dictGet? (dictSet c k v) k = some v := by
  refine ⟨?_, ?_, ?_, ?_⟩
  · intro h
    obtain ⟨fn, hm, h1, _, h3⟩ := step2Cache_some now variants st rec h
    exact ⟨fn, hm, h1, h3⟩
  · exact step2Cache_none_of_expired now variants st
  · intro h
    rw [lookup_step1_eq cfg ae adb clean st now raw rec st' h]
  · exact dictGet?_dictSet_self c k v

theorem claim_C6_witness :
    step2Cache 3701 ["EK215"] stCacheT100 = none ∧
    (lookup_flight_route cfgAdbOnly aeQuiet adbQuota id stDbAndStaleCache 50
      "EK215").result = recDXBLHR ∧
    dictGet? (dictSet [("EK215", halfRecord)] "EK215" recDXBLHR) "EK215"
      = some recDXBLHR := by
  refine ⟨?_, ?_, ?_⟩
  · exact (claim_C6 ["EK215"] stCacheT100 3701 cfgAdbOnly aeQuiet adbQuota id
      "EK215" recDXBLHR initialState [] "" emptyRecord).2.1 (by decide)
  · exact (claim_C6 [] stDbAndStaleCache 50 cfgAdbOnly aeQuiet adbQuota id
      "EK215" recDXBLHR
      { stDbAndStaleCache with
          route_cache := dictSet stDbAndStaleCache.route_cache "EK215" recDXBLHR,
          route_cache_time :=
            dictSet stDbAndStaleCache.route_cache_time "EK215" 50 }
      [] "" emptyRecord).2.2.1 (by decide)
  · exact (claim_C6 [] initialState 0 cfgAdbOnly aeQuiet adbQuota id ""
      emptyRecord initialState [("EK215", halfRecord)] "EK215" recDXBLHR).2.2.2

/-- C9 counterexample: with Aviation Edge as the configured provider, a
complete record found via the variant EK215 (different from the raw
identifier UAE215) is returned, but the route cache is left untouched and
the serving variant is not persisted — only the raw identifier is. -/
theorem claim_C9_counterexample :
    (lookup_flight_route cfgAePrimary aeFoundOnEK215 adbNoContent id
        initialState 7 "UAE215").result = ⟨"DXB", "LHR", "", "", "", ""⟩ ∧
    (lookup_flight_route cfgAePrimary aeFoundOnEK215 adbNoContent id
        initialState 7 "UAE215").state.route_cache = [] ∧
    dictGet? (lookup_flight_route cfgAePrimary aeFoundOnEK215 adbNoContent id
        initialState 7 "UAE215").state.route_database "EK215" = none ∧
    dictGet? (lookup_flight_route cfgAePrimary aeFoundOnEK215 adbNoContent id
        initialState 7 "UAE215").state.route_database "UAE215"
      = some ⟨"DXB", "LHR", "", "", "", ""⟩ := by
  decide

/-- C9 (amended): in the Aerodatabox path a serving 200 response triggers
the full write-through before returning — cache entry and timestamp under
the raw identifier, plus guarded persistence under the raw identifier and
under the serving variant when different.  In the Aviation Edge path the
record is persisted only under the raw identifier; the route cache and
every other database key are untouched. -/
theorem claim_C9_amended (cfg : Config) (ae : AEOracle)
    (adb : String → Nat → AdbResp) (clean : String → String)
    (st : TrackerState) (now : Nat) (raw : String) (f : String)
    (rec : RouteRecord) (st' : TrackerState) (c : Nat)
    (ac : List (String × (String × String))) :
    (¬ (cfg.route_api_provider = "aviation_edge" ∧ cfg.aviation_edge_key ≠ "") →
      cfg.rapidapi_key ≠ "" →
      ¬ (st.quota_exceeded = true ∧ now < st.quota_exceeded_until) →
      step1Database now (flight_numbers_to_try (pyStripUpper raw)) st = none →
      step2Cache now (flight_numbers_to_try (pyStripUpper raw)) st = none →
      adbTryAll adb (pyStripUpper raw) now
        (endpointsToTry (quotaReset st).quota_exceeded)
        (flight_numbers_to_try (pyStripUpper raw)) (quotaReset st) 0
        = .found f rec st' c →
      (lookup_flight_route cfg ae adb clean st now raw).result = rec ∧
      dictGet? (lookup_flight_route cfg ae adb clean st now raw).state.route_cache
        (pyStripUpper raw) = some rec ∧
      dictGet?
        (lookup_flight_route cfg ae adb clean st now raw).state.route_cache_time
        (pyStripUpper raw) = some now ∧
      (dictGet? st.route_database (pyStripUpper raw) = none →
        dictGet? (lookup_flight_route cfg ae adb clean st now raw).state.route_database
          (pyStripUpper raw) = some rec) ∧
      (f ≠ pyStripUpper raw → dictGet? st.route_database f = none →
        dictGet? (lookup_flight_route cfg ae adb clean st now raw).state.route_database
          f = some rec)) ∧
    (cfg.route_api_provider = "aviation_edge" → cfg.aviation_edge_key ≠ "" →
      step1Database now (flight_numbers_to_try (pyStripUpper raw)) st = none →
      step2Cache now (flight_numbers_to_try (pyStripUpper raw)) st = none →
      aviationEdgeLookup ae clean cfg.aviation_edge_key
        (flight_numbers_to_try (pyStripUpper raw)) st.airport_cache 0
        = (some rec, ac, c) →
      (lookup_flight_route cfg ae adb clean st now raw).result = rec ∧
      (lookup_flight_route cfg ae adb clean st now raw).state.route_cache
        = st.route_cache ∧
      (lookup_flight_route cfg ae adb clean st now raw).state.route_cache_time
        = st.route_cache_time ∧
      dictGet? (lookup_flight_route cfg ae adb clean st now raw).state.route_database
        (pyStripUpper raw) = some rec ∧
      (∀ k, k ≠ pyStripUpper raw →
        dictGet?
          (lookup_flight_route cfg ae adb clean st now raw).state.route_database k
          = dictGet? st.route_database k)) := by
  constructor
  · intro hp hrk hnb hs1 hs2 hfound
    rw [lookup_adb_eq cfg ae adb clean st now raw hs1 hs2 hp hrk hnb, hfound]
    obtain ⟨hmem, hguard, hst'⟩ :=
      adbTryAll_found_spec adb (pyStripUpper raw) now _ _ _ _ f rec st' c hfound
    subst hst'
    obtain ⟨w1, w2, w3, w4, w5, w6, w7, w8, w9, w10⟩ :=
      adbWriteThrough_spec (pyStripUpper raw) f now rec (quotaReset st)
    refine ⟨rfl, w1, w2, ?_, ?_⟩
    · intro hnone
      apply w3
      rw [quotaReset_db]
      exact hnone
    · intro hne hnone
      apply w4 hne
      rw [quotaReset_db]
      exact hnone
  · intro hprov hkey hs1 hs2 hae
    rw [lookup_ae_some_eq cfg ae adb clean st now raw rec ac c hs1 hs2 hprov hkey hae]
    have hraw_none : dictGet? st.route_database (pyStripUpper raw) = none := by
      obtain ⟨t, ht⟩ := flight_numbers_to_try_head (pyStripUpper raw)
      refine step1Database_none now _ st hs1 (pyStripUpper raw) ?_
      rw [ht]
      exact List.mem_cons_self _ _
    refine ⟨rfl, rfl, rfl, ?_, ?_⟩
    · exact recordDiscovered_new _ _ _ hraw_none
    · intro k hk
      exact recordDiscovered_get_ne _ _ _ _ (fun he => hk he.symm)

theorem claim_C9_witness :
    dictGet? (lookup_flight_route cfgAdbOnly aeQuiet adbFoundOnEK215 id
      initialState 9 "UAE215").state.route_cache "UAE215" = some recDXBLHR ∧
    dictGet? (lookup_flight_route cfgAdbOnly aeQuiet adbFoundOnEK215 id
      initialState 9 "UAE215").state.route_database "UAE215" = some recDXBLHR ∧
    dictGet? (lookup_flight_route cfgAdbOnly aeQuiet adbFoundOnEK215 id
      initialState 9 "UAE215").state.route_database "EK215" = some recDXBLHR := by
  have h := (claim_C9_amended cfgAdbOnly aeQuiet adbFoundOnEK215 id
    initialState 9 "UAE215" "EK215" recDXBLHR
    (adbWriteThrough "UAE215" "EK215" 9 recDXBLHR (quotaReset initialState)) 4
    []).1 (by decide) (by decide) (by decide) (by decide) (by decide) (by decide)
  exact ⟨h.2.1, h.2.2.2.1 (by decide), h.2.2.2.2 (by decide) (by decide)⟩
